import Mathlib

/-
Verification of the Shopify connector (Odoo add-on) against its specification.

The definitions below are a shallow embedding of the Python source:
  - src/shopify_connector/models/order.py        (bulk order import)
  - src/odoo/shopify_connector/models/webhook.py (webhook handlers)
  - src/odoo/shopify_connector/models/product.py (bulk product import)
  - src/shopify_connector/models/partner.py      (bulk customer import)
  - src/shopify_connector/models/discount.py     (price-rule import)
  - src/odoo/Easycomm_shopify_connector/models/scheduler.py (scheduler + guard)
  - src/odoo/Easycomm_shopify_connector/hooks.py (stale-flag recovery)

The ORM store is modelled as a list of records; `search(domain, limit=1)` is
`List.find?`, `write` is an in-place field update of the matched record, and
`create` appends a record with a fresh local id.  Scalar payload fields that
the source parses from JSON (floats arriving as strings, etc.) are modelled
as their parsed values, since no claim touches the parsing itself.
-/

set_option maxHeartbeats 4000000
set_option maxRecDepth 8000

namespace ShopifyConnector

/-! ## Order data model (src/shopify_connector/models/order.py) -/

/-- Local sale-order workflow states of the host application (sale.order.state).
The source's guard checks membership in ['draft', 'sent']. -/
inductive OrderState where
  | draft
  | sent
  | sale
  | locked
  | cancel
deriving DecidableEq

/-- One upstream line item of an order payload (fields read by
_create_order_lines).  Prices and quantities are modelled as the parsed
rational values. -/
structure RawLineItem where
  title : Option String
  itemName : Option String
  price : ℚ
  quantity : ℚ
  sku : Option String
deriving DecidableEq

/-- An upstream order record (the fields of the payload that
_prepare_order_vals and _create_order_lines read and that the claims
mention). -/
structure RawOrder where
  id : ℕ
  order_number : Option ℕ
  financial_status : Option String
  fulfillment_status : Option String
  note : Option String
  line_items : List RawLineItem
deriving DecidableEq

/-- The header values produced by _prepare_order_vals (order.py lines
171-218), restricted to the claim-relevant subset.  Note that neither the
local workflow `state` nor `order_line` appears among these keys in the
source. -/
structure OrderVals where
  shopify_instance_id : ℕ
  shopify_order_id : String
  shopify_order_number : String
  shopify_financial_status : String
  shopify_fulfillment_status : String
  note : String
deriving DecidableEq

/-- A local sale.order line (sale.order.line fields created by
_create_order_lines). -/
structure OrderLine where
  lineName : String
  product_uom_qty : ℚ
  price_unit : ℚ
deriving DecidableEq

/-- A local sale.order record: local id, workflow state, its lines and the
header values.  `state` defaults to draft on create and is never written by
the connector. -/
structure SaleOrder where
  id : ℕ
  state : OrderState
  order_line : List OrderLine
  vals : OrderVals
deriving DecidableEq

/-- The local order store. -/
abbrev OrderStore := List SaleOrder

/-- _prepare_order_vals (order.py lines 171-218): maps the raw payload to the
header upsert values.  `str(order_data.get('order_number', ''))`,
`order_data.get('financial_status', 'pending')` and
`order_data.get('fulfillment_status') or 'unfulfilled'` are translated
field by field. -/
def prepareOrderVals (data : RawOrder) (instId : ℕ) : OrderVals :=
  { shopify_instance_id := instId
    shopify_order_id := toString data.id
    shopify_order_number :=
      match data.order_number with
      | some n => toString n
      | none => ""
    shopify_financial_status := data.financial_status.getD "pending"
    shopify_fulfillment_status :=
      match data.fulfillment_status with
      | some s => if s = "" then "unfulfilled" else s
      | none => "unfulfilled"
    note := data.note.getD "" }

/-- search([('shopify_order_id','=',str(id)),('shopify_instance_id','=',inst)],
limit=1). -/
def searchOrder (store : OrderStore) (sid : String) (instId : ℕ) : Option SaleOrder :=
  store.find? fun o =>
    decide (o.vals.shopify_order_id = sid) && decide (o.vals.shopify_instance_id = instId)

/-- existing_order.write(order_vals): updates the header values of the record
with the given local id, leaving state and lines untouched. -/
def writeOrderHeader (store : OrderStore) (oid : ℕ) (vals : OrderVals) : OrderStore :=
  store.map fun o => if o.id = oid then { o with vals := vals } else o

/-- Replacing the line set of the order with the given local id (the effect of
_create_order_lines on an order whose line set was empty). -/
def setOrderLines (store : OrderStore) (oid : ℕ) (lines : List OrderLine) : OrderStore :=
  store.map fun o => if o.id = oid then { o with order_line := lines } else o

/-- A fresh local id: strictly greater than every id in the store. -/
def freshId (ids : List ℕ) : ℕ := ids.foldl max 0 + 1

/-- The name chosen for a sale.order.line:
`line_item.get('title') or line_item.get('name') or product.name`
(order.py line 321).  The resolved product's name is itself derived from the
same two payload fields with the final fallback placeholder. -/
def lineItemName (li : RawLineItem) : String :=
  match li.title with
  | some t => if t = "" then (li.itemName.getD "Shopify Product") else t
  | none => li.itemName.getD "Shopify Product"

/-- _create_order_lines (order.py lines 285-331): one sale.order.line per
line item, carrying name, quantity and unit price.  Product resolution
(agreed external id, then SKU, then on-the-fly creation) always yields a
product in the source, so each item produces exactly one line. -/
def createOrderLines (lineItems : List RawLineItem) : List OrderLine :=
  lineItems.map fun li =>
    { lineName := lineItemName li
      product_uom_qty := li.quantity
      price_unit := li.price }

/-- The body of _process_order_batch for a single order record (order.py
lines 132-156, without the per-record exception guard, which is modelled in
the batch loop): search by (external id, instance); on a hit, write the
header only when the local state is draft or sent, and create lines only
when no lines exist; on a miss, create the order (state defaults to draft)
and create its lines.  Returns (store, created, updated) deltas. -/
def processOrderRecord (store : OrderStore) (data : RawOrder) (instId : ℕ) :
    OrderStore × ℕ × ℕ :=
  let vals := prepareOrderVals data instId
  match searchOrder store (toString data.id) instId with
  | some ex =>
    if ex.state = OrderState.draft ∨ ex.state = OrderState.sent then
      let s1 := writeOrderHeader store ex.id vals
      let s2 :=
        if ex.order_line.isEmpty then
          setOrderLines s1 ex.id (createOrderLines data.line_items)
        else s1
      (s2, 0, 1)
    else (store, 0, 0)
  | none =>
    let newOrder : SaleOrder :=
      { id := freshId (store.map SaleOrder.id)
        state := OrderState.draft
        order_line := createOrderLines data.line_items
        vals := vals }
    (store ++ [newOrder], 1, 0)

/-- _process_order_webhook (webhook.py lines 192-206): for orders/create and
orders/updated, upsert ONLY the header values produced by
_prepare_order_vals — no state guard and no call to _create_order_lines.
Any other topic is a no-op. -/
def processOrderWebhook (topic : String) (data : RawOrder) (instId : ℕ)
    (store : OrderStore) : OrderStore :=
  if topic = "orders/create" ∨ topic = "orders/updated" then
    let vals := prepareOrderVals data instId
    match searchOrder store (toString data.id) instId with
    | some ex => writeOrderHeader store ex.id vals
    | none =>
      store ++ [{ id := freshId (store.map SaleOrder.id)
                  state := OrderState.draft
                  order_line := []
                  vals := vals }]
  else store

/-! ## Product data model (src/odoo/shopify_connector/models/product.py) -/

/-- One upstream product variant (the fields _prepare_product_vals reads
from variants[0]).  The price arrives as a string in the source and is
parsed with float(); it is modelled as the parsed value. -/
structure RawVariant where
  price : ℚ
  sku : String
deriving DecidableEq

/-- An upstream product record (claim-relevant subset of the payload fields
read by _prepare_product_vals). -/
structure RawProduct where
  id : ℕ
  title : Option String
  status : Option String
  vendor : Option String
  tags : Option String
  variants : List RawVariant
deriving DecidableEq

/-- The upsert values produced by _prepare_product_vals (product.py lines
186-240), restricted to the claim-relevant subset. -/
structure ProductVals where
  pname : String
  shopify_instance_id : ℕ
  shopify_product_id : String
  is_shopify_product : Bool
  shopify_product_status : String
  shopify_vendor : String
  shopify_tags : String
  list_price : ℚ
  default_code : String
deriving DecidableEq

/-- A local product.template record. -/
structure ProductRecord where
  id : ℕ
  vals : ProductVals
deriving DecidableEq

/-- The local product store. -/
abbrev ProductStore := List ProductRecord

/-- _prepare_product_vals (product.py lines 186-240): price and sku come from
the first variant (0.0 and '' when absent), the remaining fields from the
payload with the documented defaults. -/
def prepareProductVals (p : RawProduct) (instId : ℕ) : ProductVals :=
  let price := match p.variants with | [] => 0 | v :: _ => v.price
  let sku := match p.variants with | [] => "" | v :: _ => v.sku
  { pname := p.title.getD "Unnamed Product"
    shopify_instance_id := instId
    shopify_product_id := toString p.id
    is_shopify_product := true
    shopify_product_status := p.status.getD "active"
    shopify_vendor := p.vendor.getD ""
    shopify_tags := p.tags.getD ""
    list_price := price
    default_code := sku }

/-- The embedding of _prepare_product_vals as a fallible mapper: the source
call sits inside the per-record try/except, and raising is represented by
an Except.error result.  The real mapper never fails on well-formed
payloads. -/
def productPrepare (instId : ℕ) : RawProduct → Except String ProductVals :=
  fun r => Except.ok (prepareProductVals r instId)

/-- search([('shopify_product_id','=',str(id)),('shopify_instance_id','=',inst)],
limit=1). -/
def searchProduct (store : ProductStore) (sid : String) (instId : ℕ) :
    Option ProductRecord :=
  store.find? fun p =>
    decide (p.vals.shopify_product_id = sid) && decide (p.vals.shopify_instance_id = instId)

/-- _process_product_batch (product.py lines 128-159): for each record of
the batch, map it (a mapping exception is caught, the record skipped and
the loop continued — the `except ... continue` at lines 155-157), search by
(str(id), instance), then write on a hit and create on a miss, counting
updates and creations. -/
def processProductBatch (prep : RawProduct → Except String ProductVals)
    (batch : List RawProduct) (instId : ℕ) (store : ProductStore) :
    ProductStore × ℕ × ℕ :=
  batch.foldl
    (fun acc r =>
      match prep r with
      | Except.error _ => acc
      | Except.ok vals =>
        match searchProduct acc.1 (toString r.id) instId with
        | some ex =>
          (acc.1.map (fun p => if p.id = ex.id then { p with vals := vals } else p),
            acc.2.1, acc.2.2 + 1)
        | none =>
          (acc.1 ++ [{ id := freshId (acc.1.map ProductRecord.id), vals := vals }],
            acc.2.1 + 1, acc.2.2))
    (store, 0, 0)

/-! ## Batch loops (import_shopify_products vs import_shopify_orders)

The two bulk importers chunk each fetched page into fixed-size batches and
process them in sequence.  The product importer (product.py lines 79-96)
wraps each batch in try/commit/except-rollback-continue; the order importer
(order.py lines 87-95) has no such guard, so a batch-level exception
propagates and aborts the whole run.  Batch-level failures (storage errors
raised by processing or by the commit) are represented by the Except result
of the batch processor. -/

/-- The product importer's batch loop (product.py lines 79-96): on success
the batch's store is committed and the counts accumulated; on a batch-level
exception the batch is rolled back (the store reverts to the last committed
state) and the loop continues with the next batch. -/
def productBatchLoop {σ α : Type} (process : σ → List α → Except String (σ × ℕ × ℕ))
    (batches : List (List α)) (store : σ) : σ × ℕ × ℕ :=
  batches.foldl
    (fun acc batch =>
      match process acc.1 batch with
      | Except.ok (s, c, u) => (s, acc.2.1 + c, acc.2.2 + u)
      | Except.error _ => acc)
    (store, 0, 0)

/-- The order importer's batch loop (order.py lines 87-95): there is no
batch-level handler, so the first batch-level exception aborts the run.
The result carries the abort status together with the state committed
before the failure (commits already issued are durable). -/
def orderBatchLoop {σ α : Type} (process : σ → List α → Except String (σ × ℕ × ℕ)) :
    List (List α) → σ → Except String Unit × σ × ℕ × ℕ
  | [], store => (Except.ok (), store, 0, 0)
  | batch :: rest, store =>
    match process store batch with
    | Except.error e => (Except.error e, store, 0, 0)
    | Except.ok (s, c, u) =>
      let r := orderBatchLoop process rest s
      (r.1, r.2.1, c + r.2.2.1, u + r.2.2.2)

/-! ## Customer data model (src/shopify_connector/models/partner.py) -/

/-- An upstream customer record (claim-relevant subset of the payload
fields read by _prepare_customer_vals). -/
structure RawCustomer where
  id : ℕ
  first_name : Option String
  last_name : Option String
  email : Option String
  total_spent : ℚ
deriving DecidableEq

/-- The upsert values produced by _prepare_customer_vals (partner.py lines
121-154), restricted to the claim-relevant subset. -/
structure CustomerVals where
  cname : String
  email : String
  shopify_instance_id : ℕ
  shopify_customer_id : String
  is_shopify_customer : Bool
  shopify_total_spent : ℚ
  customer_rank : ℕ
deriving DecidableEq

/-- A local res.partner record. -/
structure CustomerRecord where
  id : ℕ
  vals : CustomerVals
deriving DecidableEq

/-- The local customer store. -/
abbrev CustomerStore := List CustomerRecord

/-- Python str.strip() restricted to spaces (the only whitespace the claims
exercise). -/
def pyStrip (s : String) : String :=
  String.mk (((s.data.dropWhile (· = ' ')).reverse.dropWhile (· = ' ')).reverse)

/-- _prepare_customer_vals (partner.py lines 121-154):
`f"{first} {last}".strip() or customer_data.get('email', 'Unknown')` and the
remaining fields with their defaults. -/
def prepareCustomerVals (c : RawCustomer) (instId : ℕ) : CustomerVals :=
  let full := pyStrip ((c.first_name.getD "") ++ " " ++ (c.last_name.getD ""))
  { cname := if full = "" then c.email.getD "Unknown" else full
    email := c.email.getD ""
    shopify_instance_id := instId
    shopify_customer_id := toString c.id
    is_shopify_customer := true
    shopify_total_spent := c.total_spent
    customer_rank := 1 }

/-- search([('shopify_customer_id','=',str(id)),('shopify_instance_id','=',inst)],
limit=1). -/
def searchCustomer (store : CustomerStore) (sid : String) (instId : ℕ) :
    Option CustomerRecord :=
  store.find? fun p =>
    decide (p.vals.shopify_customer_id = sid) && decide (p.vals.shopify_instance_id = instId)

/-- The customer processing loop of import_shopify_customers (partner.py
lines 79-91): the per-record body has NO try/except, so a mapping exception
raised for one record propagates and aborts the whole import (it is caught
only by the top-level handler, which re-raises a UserError).  `prep`
represents _prepare_customer_vals including its possible exceptions. -/
def processCustomers (prep : RawCustomer → Except String CustomerVals) :
    List RawCustomer → ℕ → CustomerStore → Except String (CustomerStore × ℕ × ℕ)
  | [], _, store => Except.ok (store, 0, 0)
  | c :: rest, instId, store =>
    match prep c with
    | Except.error e => Except.error e
    | Except.ok vals =>
      let next : CustomerStore × ℕ × ℕ :=
        match searchCustomer store (toString c.id) instId with
        | some ex =>
          (store.map (fun p => if p.id = ex.id then { p with vals := vals } else p), 0, 1)
        | none =>
          (store ++ [{ id := freshId (store.map CustomerRecord.id), vals := vals }], 1, 0)
      match processCustomers prep rest instId next.1 with
      | Except.error e => Except.error e
      | Except.ok (s, c2, u2) => Except.ok (s, next.2.1 + c2, next.2.2 + u2)

/-! ## Pagination (product.py lines 55-107, order.py lines 64-106,
partner.py lines 43-71)

The loops issue one HTTP request per iteration against a scripted sequence of
responses and are modelled by the list of query-parameter sets they send.
Python's str.split / `in` are modelled character-wise so that everything
reduces in the kernel. -/

/-- If `sep` is a prefix of `l`, the remainder after it. -/
def dropPre : List Char → List Char → Option (List Char)
  | [], rest => some rest
  | _ :: _, [] => none
  | c :: cs, d :: ds => if c = d then dropPre cs ds else none

/-- Python `sub in s` on character lists (for non-empty `sub`). -/
def listContainsSub (sub : List Char) : List Char → Bool
  | [] => decide (sub = [])
  | l@(_ :: cs) => (dropPre sub l).isSome || listContainsSub sub cs

/-- Python s.split(sep) on character lists, fuelled by the list length (for
non-empty `sep` the fuel is never exhausted). -/
def splitListAux (sep : List Char) : ℕ → List Char → List Char → List (List Char)
  | 0, _, cur => [cur.reverse]
  | _ + 1, [], cur => [cur.reverse]
  | fuel + 1, l@(c :: cs), cur =>
    match dropPre sep l with
    | some rest => cur.reverse :: splitListAux sep fuel rest []
    | none => splitListAux sep fuel cs (c :: cur)

/-- Python s.split(sep) for a non-empty separator. -/
def pySplit (s sep : String) : List String :=
  (splitListAux sep.data (s.data.length + 1) s.data []).map String.mk

/-- Python `sub in s`. -/
def pyContains (s sub : String) : Bool :=
  listContainsSub sub.data s.data

/-- `link.split('page_info=')[1].split('>')[0]` (product.py line 103).  A
link part with no 'page_info=' would raise IndexError in the source (inside
the importer's try, aborting the run); that shape is modelled as none and
never arises in the claims. -/
def extractFromLink (l : String) : Option String :=
  match pySplit l "page_info=" with
  | _ :: t :: _ => some ((pySplit t ">").headD "")
  | _ => none

/-- The Link-header handling at the bottom of each pagination loop
(product.py lines 99-107): when the header mentions rel="next", take the
first comma-separated part that mentions it and extract its page_info
token; otherwise stop. -/
def extractNextPageInfo (h : String) : Option String :=
  if pyContains h "rel=\"next\"" then
    match (pySplit h ",").find? (fun part => pyContains part "rel=\"next\"") with
    | some part => extractFromLink part
    | none => none
  else none

/-- A scripted HTTP response: status code, the decoded record list of the
page and the raw Link header. -/
structure ApiPage (α : Type) where
  status : ℕ
  records : List α
  linkHeader : String

/-- Query parameters as an insertion-ordered dict. -/
abbrev QueryParams := List (String × String)

/-- Python `d[k] = v` on an insertion-ordered dict: replace in place when the
key exists, append otherwise. -/
def dictSet (d : QueryParams) (k v : String) : QueryParams :=
  if d.any (fun kv => kv.1 == k) then
    d.map fun kv => if kv.1 == k then (k, v) else kv
  else d ++ [(k, v)]

/-- The requests sent by the product import's pagination loop (product.py
lines 55-107; the order import, order.py lines 64-106, is identical): once a
page_info cursor has been extracted, the next request is built from scratch
as the singleton dict with only the page_info parameter (lines 57-58); the
loop stops on a non-200 status, an empty page or a header with no next
relation. -/
def productPageRequests {α : Type} :
    List (ApiPage α) → Option String → QueryParams → List QueryParams
  | [], _, _ => []
  | pg :: rest, pageInfo, params =>
    let reqParams :=
      match pageInfo with
      | some tok => [("page_info", tok)]
      | none => params
    reqParams ::
      (if pg.status ≠ 200 then []
       else if pg.records.isEmpty then []
       else
         match extractNextPageInfo pg.linkHeader with
         | some tok => productPageRequests rest (some tok) params
         | none => [])

/-- The requests sent by the customer import's pagination loop (partner.py
lines 43-71): the cursor is written into the ORIGINAL params dict in place
(`params['page_info'] = page_info`, line 48), so every later request keeps
the original parameters alongside the cursor. -/
def customerPageRequests {α : Type} :
    List (ApiPage α) → QueryParams → List QueryParams
  | [], _ => []
  | pg :: rest, params =>
    params ::
      (if pg.status ≠ 200 then []
       else if pg.records.isEmpty then []
       else
         match extractNextPageInfo pg.linkHeader with
         | some tok => customerPageRequests rest (dictSet params "page_info" tok)
         | none => [])

/-! ## Discounts (src/shopify_connector/models/discount.py) -/

/-- An upstream price rule (claim-relevant subset of the fields read by
_create_or_update_discount). -/
structure RawPriceRule where
  id : ℕ
  title : Option String
  value_type : Option String
  value : Option ℚ
deriving DecidableEq

/-- A local shopify.discount record (claim-relevant subset; every modelled
field is written by the upsert values). -/
structure DiscountRec where
  dname : String
  shopify_instance_id : ℕ
  shopify_price_rule_id : String
  value : ℚ
  value_type : String
  active_discount : Bool
deriving DecidableEq

/-- The value normalisation and upsert values of _create_or_update_discount
(discount.py lines 148-182): value_type defaults to 'percentage', the raw
value to 0.0, and a percentage value is replaced by its absolute value
(Shopify reports percentages as negative numbers). -/
def discountVals (d : RawPriceRule) (instId : ℕ) : DiscountRec :=
  let vt := d.value_type.getD "percentage"
  let v0 := d.value.getD 0
  let v := if vt = "percentage" then |v0| else v0
  { dname := d.title.getD "Unnamed Discount"
    shopify_instance_id := instId
    shopify_price_rule_id := toString d.id
    value := v
    value_type := vt
    active_discount := true }

/-- _create_or_update_discount (discount.py lines 136-241): search by
(str(id), instance) with limit 1 and write the values into the first match,
or create a new record. -/
def createOrUpdateDiscount (d : RawPriceRule) (instId : ℕ) :
    List DiscountRec → List DiscountRec
  | [] => [discountVals d instId]
  | r :: rest =>
    if r.shopify_price_rule_id = toString d.id ∧ r.shopify_instance_id = instId then
      discountVals d instId :: rest
    else r :: createOrUpdateDiscount d instId rest

/-! ## Scheduler record, completion write and stale-flag reset
(src/odoo/Easycomm_shopify_connector/models/scheduler.py, hooks.py) -/

/-- The persisted scheduler fields the claims mention. -/
structure SchedulerRec where
  is_running : Bool
  last_run : Option ℕ
  last_run_status : Option String
  last_run_message : String
deriving DecidableEq

/-- The eight sub-syncs dispatched by run_scheduled_sync, in source order
(scheduler.py lines 166-237). -/
inductive SubSync where
  | products
  | customers
  | orders
  | inventory
  | collections
  | giftCards
  | locations
  | discounts
deriving DecidableEq

/-- The enable flags of the schedule (sync_products .. sync_discounts). -/
structure SyncFlags where
  sync_products : Bool
  sync_customers : Bool
  sync_orders : Bool
  sync_inventory : Bool
  sync_collections : Bool
  sync_gift_cards : Bool
  sync_locations : Bool
  sync_discounts : Bool

/-- The enabled sub-syncs in dispatch order. -/
def enabledSubs (f : SyncFlags) : List SubSync :=
  (if f.sync_products then [SubSync.products] else []) ++
  (if f.sync_customers then [SubSync.customers] else []) ++
  (if f.sync_orders then [SubSync.orders] else []) ++
  (if f.sync_inventory then [SubSync.inventory] else []) ++
  (if f.sync_collections then [SubSync.collections] else []) ++
  (if f.sync_gift_cards then [SubSync.giftCards] else []) ++
  (if f.sync_locations then [SubSync.locations] else []) ++
  (if f.sync_discounts then [SubSync.discounts] else [])

/-- The fixed success message appended for a completed sub-sync. -/
def subSuccessMsg : SubSync → String
  | SubSync.products => "Products synced successfully"
  | SubSync.customers => "Customers synced successfully"
  | SubSync.orders => "Orders synced successfully"
  | SubSync.inventory => "Inventory synced successfully"
  | SubSync.collections => "Collections synced successfully"
  | SubSync.giftCards => "Gift cards synced successfully"
  | SubSync.locations => "Locations synced successfully"
  | SubSync.discounts => "Discounts synced successfully"

/-- The error message recorded for a failed sub-sync. -/
def subErrorMsg : SubSync → String → String
  | SubSync.products, e => "Product sync failed: " ++ e
  | SubSync.customers, e => "Customer sync failed: " ++ e
  | SubSync.orders, e => "Order sync failed: " ++ e
  | SubSync.inventory, e => "Inventory sync failed: " ++ e
  | SubSync.collections, e => "Collection sync failed: " ++ e
  | SubSync.giftCards, e => "Gift card sync failed: " ++ e
  | SubSync.locations, e => "Location sync failed: " ++ e
  | SubSync.discounts, e => "Discount sync failed: " ++ e

/-- '\n'.join. -/
def joinLines : List String → String
  | [] => ""
  | [s] => s
  | s :: rest => s ++ "\n" ++ joinLines rest

/-- The error messages collected by a run: each enabled sub-sync runs in its
own try/except and a raised exception only appends to `errors`
(`outcome s = some e` means the sub-sync raised e). -/
def runErrors (f : SyncFlags) (outcome : SubSync → Option String) : List String :=
  (enabledSubs f).filterMap fun s => (outcome s).map (subErrorMsg s)

/-- The success messages collected by a run. -/
def runSuccesses (f : SyncFlags) (outcome : SubSync → Option String) : List String :=
  (enabledSubs f).filterMap fun s =>
    match outcome s with
    | none => some (subSuccessMsg s)
    | some _ => none

/-- The completion of run_scheduled_sync past the guard (scheduler.py lines
239-268): the aggregate status and the single self.write that records
last_run, last_run_status, last_run_message and clears is_running together.
`fatal = some e` is the outer except branch (lines 256-263), which performs
the same single write with status 'failed'. -/
def runCompletionWrite (f : SyncFlags) (outcome : SubSync → Option String)
    (fatal : Option String) (now : ℕ) (_sched : SchedulerRec) : SchedulerRec :=
  match fatal with
  | some e =>
    { is_running := false
      last_run := some now
      last_run_status := some "failed"
      last_run_message := e }
  | none =>
    let errors := runErrors f outcome
    let successes := runSuccesses f outcome
    let status :=
      if errors.isEmpty then "success"
      else if successes.isEmpty then "failed"
      else "partial"
    { is_running := false
      last_run := some now
      last_run_status := some status
      last_run_message := joinLines (successes ++ errors) }

/-- _reset_running_flags (scheduler.py lines 25-34) and post_init_hook
(hooks.py lines 8-17): search([('is_running','=',True)]) and write
is_running=False on the result, leaving every other record untouched. -/
def resetRunningFlags (scheds : List SchedulerRec) : List SchedulerRec :=
  scheds.map fun s => if s.is_running then { s with is_running := false } else s

/-! ## Concurrency guard of run_scheduled_sync (scheduler.py lines 134-268)

Two invocations of run_scheduled_sync for the same schedule are modelled as
two threads, A and B, stepping through the guard protocol under an arbitrary
interleaving.  Each program point groups the statements that execute
atomically:

  * enter      — `with _sync_lock:` test-and-set of _running_syncs[key]
                 (lines 143-147; atomic because the lock is held);
  * checkDb    — reading self.is_running (line 150);
  * skipClear  — `with _sync_lock: _running_syncs[key] = False` and return
                 after observing the db flag (lines 152-154);
  * setDb      — write + commit of is_running = True (lines 157-158);
  * runSubs    — executing the enabled sub-syncs (lines 165-237);
  * finWrite   — the completion write clearing is_running (lines 247-252);
  * unlock     — the finally block clearing _running_syncs[key] (267-268);
  * returnRun / returnSkipMap / returnSkipDb — the three exits.

`_running_syncs` is a module-level dict, so two invocations share it exactly
when they run in the same server process; `is_running` is shared through the
database in every case.  The step function is therefore parametrised by
`sameProc`: when false, thread B uses its own map cell. -/

/-- Program points of the guard protocol. -/
inductive GPc where
  | enter
  | checkDb
  | skipClear
  | setDb
  | runSubs
  | finWrite
  | unlock
  | returnRun
  | returnSkipMap
  | returnSkipDb
deriving DecidableEq

/-- The shared state of two concurrent invocations: the two program
counters, the _running_syncs entry of each process and the persisted
is_running flag. -/
structure GState where
  pcA : GPc
  pcB : GPc
  mapA : Bool
  mapB : Bool
  db : Bool
deriving DecidableEq

/-- Both invocations about to start, lock map empty, is_running false. -/
def initGState : GState :=
  { pcA := GPc.enter, pcB := GPc.enter, mapA := false, mapB := false, db := false }

/-- Program counter of a thread (false = A, true = B). -/
def pcOf (t : Bool) (s : GState) : GPc := if t then s.pcB else s.pcA

/-- Set the program counter of a thread. -/
def setPc (t : Bool) (pc : GPc) (s : GState) : GState :=
  if t then { s with pcB := pc } else { s with pcA := pc }

/-- The lock-map cell a thread reads: B has its own cell only when the two
invocations run in different processes. -/
def mapOf (sameProc t : Bool) (s : GState) : Bool :=
  if t && !sameProc then s.mapB else s.mapA

/-- Write a thread's lock-map cell. -/
def setMap (sameProc t : Bool) (b : Bool) (s : GState) : GState :=
  if t && !sameProc then { s with mapB := b } else { s with mapA := b }

/-- One step of thread `t` through run_scheduled_sync's guard protocol.  A
thread that has returned does nothing. -/
def stepThread (sameProc : Bool) (t : Bool) (s : GState) : GState :=
  match pcOf t s with
  | GPc.enter =>
    if mapOf sameProc t s then setPc t GPc.returnSkipMap s
    else setPc t GPc.checkDb (setMap sameProc t true s)
  | GPc.checkDb =>
    if s.db then setPc t GPc.skipClear s else setPc t GPc.setDb s
  | GPc.skipClear => setPc t GPc.returnSkipDb (setMap sameProc t false s)
  | GPc.setDb => setPc t GPc.runSubs { s with db := true }
  | GPc.runSubs => setPc t GPc.finWrite s
  | GPc.finWrite => setPc t GPc.unlock { s with db := false }
  | GPc.unlock => setPc t GPc.returnRun (setMap sameProc t false s)
  | _ => s

/-- Run a schedule (list of thread choices) from a state. -/
def runSched (sameProc : Bool) (sched : List Bool) (s : GState) : GState :=
  sched.foldl (fun st t => stepThread sameProc t st) s

/-- A thread has executed the sub-syncs once it has passed runSubs. -/
def hasRun (pc : GPc) : Prop :=
  pc = GPc.finWrite ∨ pc = GPc.unlock ∨ pc = GPc.returnRun

/-- A thread skipped: it returned after observing the in-process lock map or
the persisted is_running flag, logging the skip and executing nothing. -/
def hasSkipped (pc : GPc) : Prop :=
  pc = GPc.returnSkipMap ∨ pc = GPc.returnSkipDb

/-- A thread has returned. -/
def isReturned (pc : GPc) : Prop :=
  pc = GPc.returnRun ∨ pc = GPc.returnSkipMap ∨ pc = GPc.returnSkipDb

/-- Both invocations have returned. -/
def bothReturned (s : GState) : Prop := isReturned s.pcA ∧ isReturned s.pcB

/-- Exactly one invocation executed the sub-syncs; the other observed one of
the two guards and skipped. -/
def exactlyOneRan (s : GState) : Prop :=
  (s.pcA = GPc.returnRun ∧ hasSkipped s.pcB) ∨ (s.pcB = GPc.returnRun ∧ hasSkipped s.pcA)

/-- A thread is in progress: it has taken its first step and has not
returned. -/
def inProgress (pc : GPc) : Prop :=
  pc ≠ GPc.enter ∧ ¬ isReturned pc

instance decHasRun (pc : GPc) : Decidable (hasRun pc) := by
  unfold hasRun; infer_instance

instance decHasSkipped (pc : GPc) : Decidable (hasSkipped pc) := by
  unfold hasSkipped; infer_instance

instance decIsReturned (pc : GPc) : Decidable (isReturned pc) := by
  unfold isReturned; infer_instance

instance decBothReturned (s : GState) : Decidable (bothReturned s) := by
  unfold bothReturned; infer_instance

instance decExactlyOneRan (s : GState) : Decidable (exactlyOneRan s) := by
  unfold exactlyOneRan; infer_instance

instance decInProgress (pc : GPc) : Decidable (inProgress pc) := by
  unfold inProgress; infer_instance

/-- Successors of a state in the same-process system. -/
def nextStates (s : GState) : List GState :=
  [stepThread true false s, stepThread true true s]

/-- One saturation pass: add every successor of every listed state. -/
def expandStates (l : List GState) : List GState :=
  l.foldl
    (fun acc s =>
      (nextStates s).foldl (fun a u => if u ∈ a then a else u :: a) acc)
    l

/-- Iterated saturation. -/
def reachFrom : ℕ → List GState → List GState
  | 0, l => l
  | n + 1, l => reachFrom n (expandStates l)

/-- All states reachable from the clean initial state in the same-process
system (the diameter is at most 14 steps). -/
def reachInit : List GState := reachFrom 16 [initGState]

/-- The states entered by a thread taking its first step while the other
invocation is in progress (both orders), starting anywhere reachable: the
post-states of an overlapping second invocation. -/
def overlapEntry : List GState :=
  ((reachInit.filter fun s =>
      decide (s.pcA = GPc.enter) && decide (s.pcB ≠ GPc.enter) && !decide (isReturned s.pcB)).map
    (stepThread true false)) ++
  ((reachInit.filter fun s =>
      decide (s.pcB = GPc.enter) && decide (s.pcA ≠ GPc.enter) && !decide (isReturned s.pcA)).map
    (stepThread true true))

/-- All states reachable after an overlap has occurred. -/
def reachOverlap : List GState := reachFrom 16 overlapEntry

/-! ## Helper lemmas -/

theorem le_foldl_max (l : List ℕ) : ∀ a : ℕ, a ≤ l.foldl max a := by
  induction l with
  | nil => intro a; simp
  | cons b l ih => intro a; exact le_trans (le_max_left a b) (ih (max a b))

theorem mem_le_foldl_max (l : List ℕ) : ∀ (a x : ℕ), x ∈ l → x ≤ l.foldl max a := by
  induction l with
  | nil => intro a x hx; cases hx
  | cons b l ih =>
    intro a x hx
    rcases List.mem_cons.mp hx with rfl | hx
    · exact le_trans (le_max_right a x) (le_foldl_max l _)
    · exact ih _ _ hx

theorem lt_freshId {ids : List ℕ} {x : ℕ} (hx : x ∈ ids) : x < freshId ids :=
  Nat.lt_succ_of_le (mem_le_foldl_max ids 0 x hx)

theorem find?_append_none {α : Type} (p : α → Bool) {l₁ : List α} (l₂ : List α)
    (h : l₁.find? p = none) : (l₁ ++ l₂).find? p = l₂.find? p := by
  induction l₁ with
  | nil => simp
  | cons a l ih =>
    cases hpa : p a with
    | true => simp [List.find?_cons, hpa] at h
    | false =>
      simp only [List.find?_cons, hpa] at h
      simpa [List.find?_cons, hpa] using ih h

/-! ## Claim C9: discount value normalisation -/

theorem createOrUpdateDiscount_mem_cases (d : RawPriceRule) (instId : ℕ) :
    ∀ (store : List DiscountRec) (r : DiscountRec),
      r ∈ createOrUpdateDiscount d instId store → r ∈ store ∨ r = discountVals d instId := by
  intro store
  induction store with
  | nil => intro r hr; right; simpa [createOrUpdateDiscount] using hr
  | cons a l ih =>
    intro r hr
    by_cases hk : a.shopify_price_rule_id = toString d.id ∧ a.shopify_instance_id = instId
    · simp only [createOrUpdateDiscount, if_pos hk] at hr
      rcases List.mem_cons.mp hr with rfl | hr
      · right; rfl
      · left; exact List.mem_cons_of_mem _ hr
    · simp only [createOrUpdateDiscount, if_neg hk] at hr
      rcases List.mem_cons.mp hr with rfl | hr
      · left; exact List.mem_cons_self _ _
      · rcases ih r hr with h | h
        · left; exact List.mem_cons_of_mem _ h
        · right; exact h

/-- Claim C9: for every imported price rule whose value_type is
"percentage", the stored discount value is the absolute value of the raw
upstream value, while a "fixed_amount" value is stored unchanged; every
record of the store after the upsert is either an untouched old record or
carries exactly the prepared values. -/
theorem c9_discount_value_normalisation (d : RawPriceRule) (instId : ℕ)
    (store : List DiscountRec) :
    (∀ r ∈ createOrUpdateDiscount d instId store, r ∈ store ∨ r = discountVals d instId) ∧
    (d.value_type = some "percentage" →
      (discountVals d instId).value = |d.value.getD 0|) ∧
    (d.value_type = some "fixed_amount" →
      (discountVals d instId).value = d.value.getD 0) := by
  refine ⟨createOrUpdateDiscount_mem_cases d instId store, ?_, ?_⟩
  · intro h; simp [discountVals, h]
  · intro h; simp [discountVals, h]

/-- Witness for C9 at a concrete negative percentage rule: the raw value
-15.0 is stored as 15.0. -/
theorem c9_witness :
    (discountVals { id := 5, title := some "Sale", value_type := some "percentage",
                    value := some (-15 : ℚ) } 1).value = 15 := by
  have h := (c9_discount_value_normalisation
    { id := 5, title := some "Sale", value_type := some "percentage",
      value := some (-15 : ℚ) } 1 []).2.1 rfl
  rw [h]; norm_num

/-! ## Claim C8: stale-flag recovery at startup -/

/-- Claim C8: the startup reset (_reset_running_flags and post_init_hook)
sets is_running to false on every schedule that had it true and leaves every
schedule that already had it false completely unchanged. -/
theorem c8_reset_running_flags (scheds : List SchedulerRec) :
    (∀ s ∈ resetRunningFlags scheds, s.is_running = false) ∧
    (∀ (i : ℕ) (s : SchedulerRec), scheds[i]? = some s → s.is_running = false →
      (resetRunningFlags scheds)[i]? = some s) ∧
    (∀ (i : ℕ) (s : SchedulerRec), scheds[i]? = some s → s.is_running = true →
      (resetRunningFlags scheds)[i]? = some { s with is_running := false }) := by
  refine ⟨?_, ?_, ?_⟩
  · intro s hs
    rcases List.mem_map.mp hs with ⟨s₀, _, rfl⟩
    by_cases h : s₀.is_running <;> simp [h]
  · intro i s hi hflag
    simp only [resetRunningFlags, List.getElem?_map, hi, Option.map_some']
    simp [hflag]
  · intro i s hi hflag
    simp only [resetRunningFlags, List.getElem?_map, hi, Option.map_some']
    simp [hflag]

/-- Witness for C8 at a concrete pair of schedules: the stale one is reset,
the idle one is untouched. -/
theorem c8_witness :
    (resetRunningFlags
        [{ is_running := true, last_run := none, last_run_status := none,
           last_run_message := "" },
         { is_running := false, last_run := some 3, last_run_status := some "success",
           last_run_message := "ok" }])[0]? =
      some { is_running := false, last_run := none, last_run_status := none,
             last_run_message := "" } ∧
    (resetRunningFlags
        [{ is_running := true, last_run := none, last_run_status := none,
           last_run_message := "" },
         { is_running := false, last_run := some 3, last_run_status := some "success",
           last_run_message := "ok" }])[1]? =
      some { is_running := false, last_run := some 3, last_run_status := some "success",
             last_run_message := "ok" } :=
  ⟨(c8_reset_running_flags _).2.2 0 _ rfl rfl, (c8_reset_running_flags _).2.1 1 _ rfl rfl⟩

/-! ## Claim C7: completion always clears is_running -/

/-- Claim C7: every completion of a run that proceeded past the guard —
success, partial success or total failure, including the outer exception
handler — performs one write that records last_run, last_run_status and
last_run_message and clears is_running, with the status aggregated as
success / partial / failed from the per-sub-sync outcomes. -/
theorem c7_completion_clears_flag (f : SyncFlags) (outcome : SubSync → Option String)
    (fatal : Option String) (now : ℕ) (sched : SchedulerRec) :
    (runCompletionWrite f outcome fatal now sched).is_running = false ∧
    (runCompletionWrite f outcome fatal now sched).last_run = some now ∧
    (runCompletionWrite f outcome fatal now sched).last_run_status.isSome = true ∧
    (fatal = none → runErrors f outcome = [] →
      (runCompletionWrite f outcome fatal now sched).last_run_status = some "success") ∧
    (fatal = none → runErrors f outcome ≠ [] → runSuccesses f outcome ≠ [] →
      (runCompletionWrite f outcome fatal now sched).last_run_status = some "partial") ∧
    (fatal = none → runErrors f outcome ≠ [] → runSuccesses f outcome = [] →
      (runCompletionWrite f outcome fatal now sched).last_run_status = some "failed") ∧
    (∀ e, fatal = some e →
      (runCompletionWrite f outcome fatal now sched).last_run_status = some "failed" ∧
      (runCompletionWrite f outcome fatal now sched).last_run_message = e) := by
  cases fatal with
  | some e =>
    refine ⟨rfl, rfl, rfl, ?_, ?_, ?_, ?_⟩
    · intro h; cases h
    · intro h; cases h
    · intro h; cases h
    · intro e2 he2
      cases he2
      exact ⟨rfl, rfl⟩
  | none =>
    refine ⟨?_, ?_, ?_, ?_, ?_, ?_, ?_⟩
    · simp [runCompletionWrite]
    · simp [runCompletionWrite]
    · simp only [runCompletionWrite]
      by_cases h1 : (runErrors f outcome).isEmpty <;>
        by_cases h2 : (runSuccesses f outcome).isEmpty <;> simp [h1, h2]
    · intro _ h
      simp [runCompletionWrite, h]
    · intro _ h1 h2
      simp [runCompletionWrite, List.isEmpty_iff, h1, h2]
    · intro _ h1 h2
      simp [runCompletionWrite, List.isEmpty_iff, h1, h2]
    · intro e he; cases he

/-- Witness for C7 at a concrete run in which the only enabled sub-sync
(products) raised: the flag is cleared and the status is failed. -/
theorem c7_witness :
    ((none : Option String) = none ∧
      runErrors
        { sync_products := true, sync_customers := false, sync_orders := false,
          sync_inventory := false, sync_collections := false, sync_gift_cards := false,
          sync_locations := false, sync_discounts := false }
        (fun _ => some "boom") ≠ [] ∧
      runSuccesses
        { sync_products := true, sync_customers := false, sync_orders := false,
          sync_inventory := false, sync_collections := false, sync_gift_cards := false,
          sync_locations := false, sync_discounts := false }
        (fun _ => some "boom") = []) ∧
    (runCompletionWrite
        { sync_products := true, sync_customers := false, sync_orders := false,
          sync_inventory := false, sync_collections := false, sync_gift_cards := false,
          sync_locations := false, sync_discounts := false }
        (fun _ => some "boom") none 7
        { is_running := true, last_run := none, last_run_status := none,
          last_run_message := "" }).is_running = false ∧
    (runCompletionWrite
        { sync_products := true, sync_customers := false, sync_orders := false,
          sync_inventory := false, sync_collections := false, sync_gift_cards := false,
          sync_locations := false, sync_discounts := false }
        (fun _ => some "boom") none 7
        { is_running := true, last_run := none, last_run_status := none,
          last_run_message := "" }).last_run_status = some "failed" :=
  ⟨⟨rfl, by decide, by decide⟩,
    (c7_completion_clears_flag _ _ none 7 _).1,
    (c7_completion_clears_flag _ (fun _ => some "boom") none 7
      { is_running := true, last_run := none, last_run_status := none,
        last_run_message := "" }).2.2.2.2.2.1 rfl (by decide) (by decide)⟩

/-! ## Claims C3 and C10: order update guards and the webhook frame -/

/-- A confirmed (state = sale) local order with one existing line, synced as
Shopify order 77 of instance 1. -/
def demoConfirmedOrder : SaleOrder :=
  { id := 1
    state := OrderState.sale
    order_line := [{ lineName := "Widget", product_uom_qty := 1, price_unit := 10 }]
    vals :=
      { shopify_instance_id := 1
        shopify_order_id := "77"
        shopify_order_number := "1001"
        shopify_financial_status := "paid"
        shopify_fulfillment_status := "fulfilled"
        note := "original" } }

/-- A store holding only the confirmed order. -/
def demoConfirmedStore : OrderStore := [demoConfirmedOrder]

/-- An upstream update of the same order 77 with a changed note. -/
def demoOrderUpdate : RawOrder :=
  { id := 77
    order_number := some 1001
    financial_status := some "paid"
    fulfillment_status := some "fulfilled"
    note := some "changed by webhook"
    line_items := [] }

/-- Counterexample to C3: the webhook path applies an orders/updated record
to an order whose local state is sale (confirmed) and overwrites its header
values, so it is not true that no path ever writes to an order that has
progressed past draft/sent. -/
theorem c3_counterexample :
    (demoConfirmedStore.map SaleOrder.state = [OrderState.sale]) ∧
    processOrderWebhook "orders/updated" demoOrderUpdate 1 demoConfirmedStore ≠
      demoConfirmedStore ∧
    (processOrderWebhook "orders/updated" demoOrderUpdate 1 demoConfirmedStore).map
        (fun o => o.vals.note) = ["changed by webhook"] := by
  refine ⟨rfl, ?_, by decide⟩
  decide

/-- Claim C3 as amended: on the bulk-import path an order whose lines
already exist never gains or loses lines, and an order past draft/sent is
left completely unchanged; the webhook path never creates or modifies any
order line (but it does write header values regardless of state, see the
counterexample). -/
theorem c3_order_update_guards :
    (∀ (store : OrderStore) (data : RawOrder) (instId : ℕ) (ex : SaleOrder),
        searchOrder store (toString data.id) instId = some ex →
        ex.order_line ≠ [] →
        ∀ o ∈ (processOrderRecord store data instId).1,
          ∃ o₀ ∈ store, o.id = o₀.id ∧ o.order_line = o₀.order_line) ∧
    (∀ (store : OrderStore) (data : RawOrder) (instId : ℕ) (ex : SaleOrder),
        searchOrder store (toString data.id) instId = some ex →
        ¬ (ex.state = OrderState.draft ∨ ex.state = OrderState.sent) →
        (processOrderRecord store data instId).1 = store) ∧
    (∀ (topic : String) (store : OrderStore) (data : RawOrder) (instId : ℕ),
        ∀ o ∈ processOrderWebhook topic data instId store,
          o.order_line = [] ∨ ∃ o₀ ∈ store, o.id = o₀.id ∧ o.order_line = o₀.order_line) := by
  refine ⟨?_, ?_, ?_⟩
  · intro store data instId ex hfind hlines o ho
    simp only [processOrderRecord, hfind] at ho
    by_cases hstate : ex.state = OrderState.draft ∨ ex.state = OrderState.sent
    · rw [if_pos hstate] at ho
      rw [if_neg (by simp [List.isEmpty_iff, hlines] :
        ¬ ex.order_line.isEmpty = true)] at ho
      simp only [writeOrderHeader, List.mem_map] at ho
      obtain ⟨o₀, ho₀, rfl⟩ := ho
      by_cases hid : o₀.id = ex.id <;> simp only [hid, if_pos, if_neg, ite_true, ite_false] <;>
        exact ⟨o₀, ho₀, by simp [hid]⟩
    · rw [if_neg hstate] at ho
      exact ⟨o, ho, rfl, rfl⟩
  · intro store data instId ex hfind hstate
    simp [processOrderRecord, hfind, hstate]
  · intro topic store data instId o ho
    simp only [processOrderWebhook] at ho
    by_cases htopic : topic = "orders/create" ∨ topic = "orders/updated"
    · rw [if_pos htopic] at ho
      cases hfind : searchOrder store (toString data.id) instId with
      | some ex =>
        rw [hfind] at ho
        simp only [writeOrderHeader, List.mem_map] at ho
        obtain ⟨o₀, ho₀, rfl⟩ := ho
        right
        by_cases hid : o₀.id = ex.id <;> exact ⟨o₀, ho₀, by simp [hid]⟩
      | none =>
        rw [hfind] at ho
        rcases List.mem_append.mp ho with h | h
        · exact Or.inr ⟨o, h, rfl, rfl⟩
        · left
          rcases List.mem_singleton.mp h with rfl
          rfl
    · rw [if_neg htopic] at ho
      exact Or.inr ⟨o, ho, rfl, rfl⟩

/-- Witness for C3 at the concrete confirmed order: the bulk path leaves the
confirmed store untouched. -/
theorem c3_witness :
    (searchOrder demoConfirmedStore (toString demoOrderUpdate.id) 1 =
        some demoConfirmedOrder ∧
      ¬ (demoConfirmedOrder.state = OrderState.draft ∨
          demoConfirmedOrder.state = OrderState.sent)) ∧
    (processOrderRecord demoConfirmedStore demoOrderUpdate 1).1 = demoConfirmedStore :=
  ⟨⟨by decide, by decide⟩,
    c3_order_update_guards.2.1 demoConfirmedStore demoOrderUpdate 1
      demoConfirmedOrder (by decide) (by decide)⟩

/-- Claim C10: the order webhook upserts only the header values produced by
_prepare_order_vals and never creates order lines: an order first
materialised through the webhook is created with an empty line set even
when the payload's line_items list is non-empty. -/
theorem c10_webhook_no_lines (topic : String) (data : RawOrder) (instId : ℕ)
    (store : OrderStore)
    (ht : topic = "orders/create" ∨ topic = "orders/updated")
    (hn : searchOrder store (toString data.id) instId = none) :
    processOrderWebhook topic data instId store =
      store ++ [{ id := freshId (store.map SaleOrder.id)
                  state := OrderState.draft
                  order_line := []
                  vals := prepareOrderVals data instId }] := by
  simp [processOrderWebhook, ht, hn]

/-- An upstream order carrying two line items, used to first-materialise an
order through the webhook. -/
def demoWebhookOrder : RawOrder :=
  { id := 88
    order_number := some 1002
    financial_status := some "pending"
    fulfillment_status := none
    note := none
    line_items :=
      [{ title := some "Widget", itemName := none, price := 10, quantity := 2, sku := some "W1" },
       { title := some "Gadget", itemName := none, price := 5, quantity := 1, sku := none }] }

/-- Witness for C10: webhook-created order 88 has zero lines although its
payload carries two line items, while the bulk path would have created both
lines. -/
theorem c10_witness :
    (("orders/create" = "orders/create" ∨ "orders/create" = "orders/updated") ∧
      searchOrder [] (toString demoWebhookOrder.id) 1 = none ∧
      demoWebhookOrder.line_items ≠ []) ∧
    processOrderWebhook "orders/create" demoWebhookOrder 1 [] =
      [{ id := 1, state := OrderState.draft, order_line := [],
         vals := prepareOrderVals demoWebhookOrder 1 }] ∧
    (processOrderRecord [] demoWebhookOrder 1).1.map (fun o => o.order_line.length) = [2] :=
  ⟨⟨Or.inl rfl, rfl, by decide⟩,
    c10_webhook_no_lines "orders/create" demoWebhookOrder 1 [] (Or.inl rfl) rfl,
    by decide⟩

/-! ## Claim C2: cursor purity of the paginated imports -/

theorem productPageRequests_cursor_only {α : Type} :
    ∀ (pages : List (ApiPage α)) (tok : String) (params : QueryParams),
      ∀ q ∈ productPageRequests pages (some tok) params,
        ∃ u, q = [("page_info", u)] := by
  intro pages
  induction pages with
  | nil => intro tok params q hq; cases hq
  | cons pg rest ih =>
    intro tok params q hq
    simp only [productPageRequests] at hq
    rcases List.mem_cons.mp hq with rfl | hq
    · exact ⟨tok, rfl⟩
    · by_cases h200 : pg.status ≠ 200
      · rw [if_pos h200] at hq; cases hq
      · rw [if_neg h200] at hq
        by_cases hempty : pg.records.isEmpty = true
        · rw [if_pos hempty] at hq; cases hq
        · rw [if_neg hempty] at hq
          cases hlink : extractNextPageInfo pg.linkHeader with
          | some tok2 => rw [hlink] at hq; exact ih tok2 params q hq
          | none => rw [hlink] at hq; cases hq

theorem dictSet_keeps_other_keys {d : QueryParams} {kv : String × String}
    (hkv : kv ∈ d) (k v : String) (hne : kv.1 ≠ k) : kv ∈ dictSet d k v := by
  unfold dictSet
  by_cases hany : d.any (fun kv2 => kv2.1 == k)
  · rw [if_pos hany]
    refine List.mem_map.mpr ⟨kv, hkv, ?_⟩
    simp [hne]
  · rw [if_neg hany]
    exact List.mem_append_left _ hkv

theorem customerPageRequests_keep_params {α : Type} :
    ∀ (pages : List (ApiPage α)) (params : QueryParams),
      ∀ q ∈ customerPageRequests pages params,
        ∀ kv ∈ params, kv.1 ≠ "page_info" → kv ∈ q := by
  intro pages
  induction pages with
  | nil => intro params q hq; cases hq
  | cons pg rest ih =>
    intro params q hq kv hkv hne
    simp only [customerPageRequests] at hq
    rcases List.mem_cons.mp hq with rfl | hq
    · exact hkv
    · by_cases h200 : pg.status ≠ 200
      · rw [if_pos h200] at hq; cases hq
      · rw [if_neg h200] at hq
        by_cases hempty : pg.records.isEmpty = true
        · rw [if_pos hempty] at hq; cases hq
        · rw [if_neg hempty] at hq
          cases hlink : extractNextPageInfo pg.linkHeader with
          | some tok =>
            rw [hlink] at hq
            exact ih _ q hq kv (dictSet_keeps_other_keys hkv _ _ hne) hne
          | none => rw [hlink] at hq; cases hq

/-- Claim C2 as amended: for the product and order imports, every request
after the first (i.e. every cursor-bearing request) carries only the
page_info token, all original query parameters being dropped; the
customer import instead keeps every original (non-page_info) parameter on
every request it sends, cursor-bearing requests included. -/
theorem c2_cursor_purity :
    (∀ (α : Type) (pages : List (ApiPage α)) (params : QueryParams),
       ∀ q ∈ (productPageRequests pages none params).tail,
         ∃ u, q = [("page_info", u)]) ∧
    (∀ (α : Type) (pages : List (ApiPage α)) (params : QueryParams),
       ∀ q ∈ customerPageRequests pages params,
         ∀ kv ∈ params, kv.1 ≠ "page_info" → kv ∈ q) := by
  constructor
  · intro α pages params q hq
    cases pages with
    | nil => cases hq
    | cons pg rest =>
      simp only [productPageRequests, List.tail_cons] at hq
      by_cases h200 : pg.status ≠ 200
      · rw [if_pos h200] at hq; cases hq
      · rw [if_neg h200] at hq
        by_cases hempty : pg.records.isEmpty = true
        · rw [if_pos hempty] at hq; cases hq
        · rw [if_neg hempty] at hq
          cases hlink : extractNextPageInfo pg.linkHeader with
          | some tok =>
            rw [hlink] at hq
            exact productPageRequests_cursor_only rest tok params q hq
          | none => rw [hlink] at hq; cases hq
  · exact fun α => customerPageRequests_keep_params

/-- Two scripted customer pages: the first carries a rel="next" cursor. -/
def demoCustomerPages : List (ApiPage ℕ) :=
  [{ status := 200, records := [1],
     linkHeader := "<https://x.myshopify.com/admin/api/2024-01/customers.json?page_info=abc>; rel=\"next\"" },
   { status := 200, records := [2], linkHeader := "" }]

/-- Counterexample to C2: in the customer import the second (cursor-bearing)
request still carries the original limit parameter next to page_info, so it
is not true that every original query parameter is dropped from all
cursor-bearing requests. -/
theorem c2_counterexample :
    customerPageRequests demoCustomerPages [("limit", "250")] =
      [[("limit", "250")], [("limit", "250"), ("page_info", "abc")]] ∧
    ("limit", "250") ∈ (customerPageRequests demoCustomerPages [("limit", "250")]).getLastD [] := by
  constructor <;> decide

/-- Two scripted product pages mirroring demoCustomerPages. -/
def demoProductPages : List (ApiPage ℕ) :=
  [{ status := 200, records := [1],
     linkHeader := "<https://x.myshopify.com/admin/api/2024-01/products.json?page_info=abc>; rel=\"next\"" },
   { status := 200, records := [2], linkHeader := "" }]

/-- Witness for C2: the product import's second request is the pure cursor
request. -/
theorem c2_witness :
    ([("page_info", "abc")] ∈
        (productPageRequests demoProductPages none [("limit", "250")]).tail) ∧
    (∃ u, [("page_info", "abc")] = [("page_info", u)]) ∧
    (("limit", "250") ∈ [("limit", "250"), ("page_info", "abc")]) :=
  ⟨by decide,
    c2_cursor_purity.1 ℕ demoProductPages [("limit", "250")] [("page_info", "abc")] (by decide),
    c2_cursor_purity.2 ℕ demoCustomerPages [("limit", "250")]
      [("limit", "250"), ("page_info", "abc")] (by decide) ("limit", "250") (by decide)
      (by decide)⟩

/-! ## Claim C4: batch-level failure isolation -/

theorem productBatchLoop_foldl_skip {σ α : Type}
    (process : σ → List α → Except String (σ × ℕ × ℕ)) (bf : List α) (e : String)
    (hf : ∀ s : σ, process s bf = Except.error e) :
    ∀ (b₁ b₂ : List (List α)) (acc : σ × ℕ × ℕ),
      List.foldl
        (fun acc batch =>
          match process acc.1 batch with
          | Except.ok (s, c, u) => (s, acc.2.1 + c, acc.2.2 + u)
          | Except.error _ => acc)
        acc (b₁ ++ bf :: b₂) =
      List.foldl
        (fun acc batch =>
          match process acc.1 batch with
          | Except.ok (s, c, u) => (s, acc.2.1 + c, acc.2.2 + u)
          | Except.error _ => acc)
        acc (b₁ ++ b₂) := by
  intro b₁
  induction b₁ with
  | nil =>
    intro b₂ acc
    simp only [List.nil_append, List.foldl_cons, hf acc.1]
  | cons b rest ih =>
    intro b₂ acc
    simp only [List.cons_append, List.foldl_cons]
    exact ih b₂ _

theorem orderBatchLoop_aborts {σ α : Type}
    (process : σ → List α → Except String (σ × ℕ × ℕ)) :
    ∀ (batches : List (List α)) (store : σ),
      (∃ bf ∈ batches, ∀ s : σ, ∃ e, process s bf = Except.error e) →
      ∃ e, (orderBatchLoop process batches store).1 = Except.error e := by
  intro batches
  induction batches with
  | nil => intro store h; obtain ⟨bf, hbf, _⟩ := h; cases hbf
  | cons b rest ih =>
    intro store h
    obtain ⟨bf, hbf, hfail⟩ := h
    rcases List.mem_cons.mp hbf with rfl | hbf
    · obtain ⟨e, he⟩ := hfail store
      exact ⟨e, by simp [orderBatchLoop, he]⟩
    · cases hp : process store b with
      | error e => exact ⟨e, by simp [orderBatchLoop, hp]⟩
      | ok scu =>
        obtain ⟨s, c, u⟩ := scu
        obtain ⟨e, he⟩ := ih s ⟨bf, hbf, hfail⟩
        exact ⟨e, by simp [orderBatchLoop, hp, he]⟩

/-- Claim C4 as amended: in the product import a batch on which processing
always raises contributes nothing — its work is rolled back and the run is
exactly the run without that batch, every other batch still processed and
committed; in the order import there is no batch-level handler, so a
failing batch aborts the whole run with an error. -/
theorem c4_batch_isolation :
    (∀ (σ α : Type) (process : σ → List α → Except String (σ × ℕ × ℕ))
       (bf : List α) (e : String),
       (∀ s : σ, process s bf = Except.error e) →
       ∀ (b₁ b₂ : List (List α)) (store : σ),
         productBatchLoop process (b₁ ++ bf :: b₂) store =
           productBatchLoop process (b₁ ++ b₂) store) ∧
    (∀ (σ α : Type) (process : σ → List α → Except String (σ × ℕ × ℕ))
       (batches : List (List α)) (store : σ),
       (∃ bf ∈ batches, ∀ s : σ, ∃ e, process s bf = Except.error e) →
       ∃ e, (orderBatchLoop process batches store).1 = Except.error e) := by
  constructor
  · intro σ α process bf e hf b₁ b₂ store
    exact productBatchLoop_foldl_skip process bf e hf b₁ b₂ (store, 0, 0)
  · intro σ α process batches store h
    exact orderBatchLoop_aborts process batches store h

/-- A concrete batch processor that appends the batch to the store and
raises a storage error on the batch [13]. -/
def demoBatchProcess (s : List ℕ) (b : List ℕ) : Except String (List ℕ × ℕ × ℕ) :=
  if b = [13] then Except.error "storage error" else Except.ok (s ++ b, b.length, 0)

/-- Counterexample to C4: with the batches [[1], [13], [3]] the ORDER import
aborts at the failing second batch — the run as a whole aborts, the third
batch is never processed (only batch [1] is committed) — whereas the claim
asserts every import run continues with the next batch.  The product import
does continue. -/
theorem c4_counterexample :
    (orderBatchLoop demoBatchProcess [[1], [13], [3]] []).1 = Except.error "storage error" ∧
    (orderBatchLoop demoBatchProcess [[1], [13], [3]] []).2.1 = [1] ∧
    productBatchLoop demoBatchProcess [[1], [13], [3]] [] = ([1, 3], 2, 0) := by
  refine ⟨?_, ?_, ?_⟩ <;> rfl

/-- Witness for C4: the product import with the failing batch [13] equals
the product import without it. -/
theorem c4_witness :
    productBatchLoop demoBatchProcess [[1], [13], [3]] [] =
      productBatchLoop demoBatchProcess [[1], [3]] [] ∧
    productBatchLoop demoBatchProcess [[1], [3]] [] = ([1, 3], 2, 0) :=
  ⟨c4_batch_isolation.1 (List ℕ) ℕ demoBatchProcess [13] "storage error" (fun _ => rfl)
      [[1]] [[3]] [], rfl⟩

/-! ## Claim C5: per-record failure isolation -/

theorem processProductBatch_skip_bad
    (prep : RawProduct → Except String ProductVals) (bad : RawProduct) (e : String)
    (hbad : prep bad = Except.error e) :
    ∀ (b₁ b₂ : List RawProduct) (instId : ℕ) (acc : ProductStore × ℕ × ℕ),
      List.foldl
        (fun acc r =>
          match prep r with
          | Except.error _ => acc
          | Except.ok vals =>
            match searchProduct acc.1 (toString r.id) instId with
            | some ex =>
              (acc.1.map (fun p => if p.id = ex.id then { p with vals := vals } else p),
                acc.2.1, acc.2.2 + 1)
            | none =>
              (acc.1 ++ [{ id := freshId (acc.1.map ProductRecord.id), vals := vals }],
                acc.2.1 + 1, acc.2.2))
        acc (b₁ ++ bad :: b₂) =
      List.foldl
        (fun acc r =>
          match prep r with
          | Except.error _ => acc
          | Except.ok vals =>
            match searchProduct acc.1 (toString r.id) instId with
            | some ex =>
              (acc.1.map (fun p => if p.id = ex.id then { p with vals := vals } else p),
                acc.2.1, acc.2.2 + 1)
            | none =>
              (acc.1 ++ [{ id := freshId (acc.1.map ProductRecord.id), vals := vals }],
                acc.2.1 + 1, acc.2.2))
        acc (b₁ ++ b₂) := by
  intro b₁
  induction b₁ with
  | nil =>
    intro b₂ instId acc
    simp only [List.nil_append, List.foldl_cons, hbad]
  | cons r rest ih =>
    intro b₂ instId acc
    simp only [List.cons_append, List.foldl_cons]
    exact ih b₂ instId _

theorem processCustomers_aborts (prep : RawCustomer → Except String CustomerVals) :
    ∀ (cs : List RawCustomer) (bad : RawCustomer) (e : String) (instId : ℕ)
      (store : CustomerStore),
      bad ∈ cs → prep bad = Except.error e →
      ∃ msg, processCustomers prep cs instId store = Except.error msg := by
  intro cs
  induction cs with
  | nil => intro bad e instId store hmem; cases hmem
  | cons c rest ih =>
    intro bad e instId store hmem hbad
    cases hp : prep c with
    | error msg => exact ⟨msg, by simp [processCustomers, hp]⟩
    | ok vals =>
      have hbadrest : bad ∈ rest := by
        rcases List.mem_cons.mp hmem with rfl | h
        · rw [hp] at hbad; cases hbad
        · exact h
      obtain ⟨msg, hmsg⟩ := ih bad e instId
        (match searchCustomer store (toString c.id) instId with
          | some ex =>
            store.map (fun p => if p.id = ex.id then { p with vals := vals } else p)
          | none =>
            store ++ [{ id := freshId (store.map CustomerRecord.id), vals := vals }])
        hbadrest hbad
      refine ⟨msg, ?_⟩
      simp only [processCustomers, hp]
      cases hs : searchCustomer store (toString c.id) instId with
      | some ex => rw [hs] at hmsg; simp [hmsg]
      | none => rw [hs] at hmsg; simp [hmsg]

/-- Claim C5 as amended: in the product batch processor a record whose
mapping raises is skipped and the batch is exactly the batch without that
record — every other record is still processed; the customer import has no
per-record handler, so one failing record aborts the whole customer run. -/
theorem c5_record_isolation :
    (∀ (prep : RawProduct → Except String ProductVals) (bad : RawProduct) (e : String),
       prep bad = Except.error e →
       ∀ (b₁ b₂ : List RawProduct) (instId : ℕ) (store : ProductStore),
         processProductBatch prep (b₁ ++ bad :: b₂) instId store =
           processProductBatch prep (b₁ ++ b₂) instId store) ∧
    (∀ (prep : RawCustomer → Except String CustomerVals) (cs : List RawCustomer)
       (bad : RawCustomer) (e : String) (instId : ℕ) (store : CustomerStore),
       bad ∈ cs → prep bad = Except.error e →
       ∃ msg, processCustomers prep cs instId store = Except.error msg) := by
  constructor
  · intro prep bad e hbad b₁ b₂ instId store
    exact processProductBatch_skip_bad prep bad e hbad b₁ b₂ instId (store, 0, 0)
  · intro prep cs bad e instId store hmem hbad
    exact processCustomers_aborts prep cs bad e instId store hmem hbad

/-- A concrete customer mapper that raises on the malformed record with
id 13 and otherwise behaves like _prepare_customer_vals for instance 1. -/
def demoCustomerPrep (c : RawCustomer) : Except String CustomerVals :=
  if c.id = 13 then Except.error "mapping error" else Except.ok (prepareCustomerVals c 1)

/-- A well-formed upstream customer. -/
def demoCustomer1 : RawCustomer :=
  { id := 1, first_name := some "Ann", last_name := some "Ames",
    email := some "ann@example.com", total_spent := 10 }

/-- The malformed upstream customer. -/
def demoCustomerBad : RawCustomer :=
  { id := 13, first_name := none, last_name := none, email := none, total_spent := 0 }

/-- Another well-formed upstream customer. -/
def demoCustomer2 : RawCustomer :=
  { id := 2, first_name := some "Bob", last_name := some "Beck",
    email := some "bob@example.com", total_spent := 5 }

/-- Counterexample to C5: one malformed record aborts the whole customer
run — the record after it is never processed and no store is returned —
whereas the claim asserts record-level isolation on every import path.
Without the malformed record both remaining customers import fine. -/
theorem c5_counterexample :
    processCustomers demoCustomerPrep [demoCustomer1, demoCustomerBad, demoCustomer2] 1 [] =
      Except.error "mapping error" ∧
    (processCustomers demoCustomerPrep [demoCustomer1, demoCustomer2] 1 []).isOk = true := by
  constructor <;> rfl

/-- A concrete product mapper that raises on the malformed record with
id 13 and otherwise behaves like _prepare_product_vals for instance 1. -/
def demoProductPrep (r : RawProduct) : Except String ProductVals :=
  if r.id = 13 then Except.error "bad shape" else Except.ok (prepareProductVals r 1)

/-- Three upstream products, the middle one malformed. -/
def demoRawProduct1 : RawProduct :=
  { id := 1, title := some "Widget", status := some "active", vendor := some "Acme",
    tags := some "a,b", variants := [{ price := 10, sku := "W1" }] }

/-- The malformed upstream product. -/
def demoRawProductBad : RawProduct :=
  { id := 13, title := none, status := none, vendor := none, tags := none, variants := [] }

/-- Another well-formed upstream product. -/
def demoRawProduct2 : RawProduct :=
  { id := 2, title := some "Gadget", status := some "draft", vendor := none,
    tags := none, variants := [{ price := 5, sku := "G1" }] }

/-- Witness for C5: skipping the malformed product record leaves the rest of
the batch processed exactly as if the record were absent, and the batch
creates the other two products. -/
theorem c5_witness :
    (demoProductPrep demoRawProductBad = Except.error "bad shape" ∧
      processProductBatch demoProductPrep
          ([demoRawProduct1] ++ demoRawProductBad :: [demoRawProduct2]) 1 [] =
        processProductBatch demoProductPrep ([demoRawProduct1] ++ [demoRawProduct2]) 1 []) ∧
    (processProductBatch demoProductPrep
        ([demoRawProduct1] ++ demoRawProductBad :: [demoRawProduct2]) 1 []).2.1 = 2 :=
  ⟨⟨rfl,
    c5_record_isolation.1 demoProductPrep demoRawProductBad "bad shape" rfl
      [demoRawProduct1] [demoRawProduct2] 1 []⟩, by decide⟩

/-! ## Claim C6: upsert idempotence -/

/-- The record the create branch of _process_product_batch appends for a
record whose key is not yet in the store. -/
def createdProductRec (r : RawProduct) (instId : ℕ) (store : ProductStore) : ProductRecord :=
  { id := freshId (store.map ProductRecord.id), vals := prepareProductVals r instId }

theorem map_update_id {β : Type} (f : β → β) :
    ∀ l : List β, (∀ a ∈ l, f a = a) → l.map f = l := by
  intro l
  induction l with
  | nil => intro _; rfl
  | cons a l ih =>
    intro hl
    rw [List.map_cons, hl a (List.mem_cons_self a l), ih fun b hb =>
      hl b (List.mem_cons_of_mem a hb)]

/-- Claim C6: importing an upstream product whose (instance, external id)
key is absent creates exactly one local record (counted as created); an
identical second import finds that record by its key and performs an
update (counted as updated, never a second create), leaving the store
unchanged and holding exactly one record under the key. -/
theorem c6_upsert_idempotent (r : RawProduct) (instId : ℕ) (store : ProductStore)
    (h : searchProduct store (toString r.id) instId = none) :
    processProductBatch (productPrepare instId) [r] instId store =
      (store ++ [createdProductRec r instId store], 1, 0) ∧
    processProductBatch (productPrepare instId) [r] instId
        (store ++ [createdProductRec r instId store]) =
      (store ++ [createdProductRec r instId store], 0, 1) ∧
    ((store ++ [createdProductRec r instId store]).filter fun p =>
        decide (p.vals.shopify_product_id = toString r.id) &&
          decide (p.vals.shopify_instance_id = instId)).length = 1 := by
  have h' : List.find?
      (fun p => decide (p.vals.shopify_product_id = toString r.id) &&
        decide (p.vals.shopify_instance_id = instId)) store = none := h
  have hallfalse : ∀ p ∈ store,
      ¬ ((decide (p.vals.shopify_product_id = toString r.id) &&
          decide (p.vals.shopify_instance_id = instId)) = true) :=
    fun p hp => List.find?_eq_none.mp h' p hp
  have hpnew : (decide ((createdProductRec r instId store).vals.shopify_product_id =
        toString r.id) &&
      decide ((createdProductRec r instId store).vals.shopify_instance_id = instId)) =
        true := by
    simp [createdProductRec, prepareProductVals]
  have hfind2 : searchProduct (store ++ [createdProductRec r instId store])
      (toString r.id) instId = some (createdProductRec r instId store) := by
    unfold searchProduct
    rw [find?_append_none _ _ h']
    simp [List.find?_cons, hpnew]
  have hidfresh : ∀ p ∈ store, p.id ≠ (createdProductRec r instId store).id :=
    fun p hp =>
      Nat.ne_of_lt (lt_freshId (List.mem_map_of_mem ProductRecord.id hp))
  have hmap : (store ++ [createdProductRec r instId store]).map
      (fun p => if p.id = (createdProductRec r instId store).id then
          { p with vals := prepareProductVals r instId } else p) =
      store ++ [createdProductRec r instId store] := by
    rw [List.map_append]
    congr 1
    · exact map_update_id _ store fun p hp => if_neg (hidfresh p hp)
    · simp [createdProductRec]
  refine ⟨?_, ?_, ?_⟩
  · simp [processProductBatch, productPrepare, h, createdProductRec]
  · simp only [processProductBatch, List.foldl_cons, List.foldl_nil, productPrepare,
      hfind2]
    rw [hmap]
  · rw [List.filter_append, List.filter_eq_nil_iff.mpr hallfalse]
    simp [hpnew]

/-- Witness for C6: a concrete product imported twice into an empty store
yields one record, a created count of 1 then an updated count of 1. -/
theorem c6_witness :
    (searchProduct [] (toString demoRawProduct1.id) 1 = none) ∧
    processProductBatch (productPrepare 1) [demoRawProduct1] 1 [] =
      ([{ id := 1, vals := prepareProductVals demoRawProduct1 1 }], 1, 0) ∧
    processProductBatch (productPrepare 1) [demoRawProduct1] 1
        [{ id := 1, vals := prepareProductVals demoRawProduct1 1 }] =
      ([{ id := 1, vals := prepareProductVals demoRawProduct1 1 }], 0, 1) :=
  ⟨rfl, (c6_upsert_idempotent demoRawProduct1 1 [] rfl).1,
    (c6_upsert_idempotent demoRawProduct1 1 [] rfl).2.1⟩

/-! ## Claim C1: the concurrency guard -/

theorem runSched_cons (p t : Bool) (rest : List Bool) (s : GState) :
    runSched p (t :: rest) s = runSched p rest (stepThread p t s) := rfl

theorem runSched_append (p : Bool) (l₁ l₂ : List Bool) (s : GState) :
    runSched p (l₁ ++ l₂) s = runSched p l₂ (runSched p l₁ s) := by
  simp [runSched, List.foldl_append]

theorem mem_runSched_of_closed (L : List GState)
    (hL : ∀ s ∈ L, ∀ u ∈ nextStates s, u ∈ L) :
    ∀ (sched : List Bool) (s : GState), s ∈ L → runSched true sched s ∈ L := by
  intro sched
  induction sched with
  | nil => intro s hs; simpa [runSched] using hs
  | cons t rest ih =>
    intro s hs
    have hstep : stepThread true t s ∈ L := by
      refine hL s hs _ ?_
      cases t <;> simp [nextStates]
    rw [runSched_cons]
    exact ih _ hstep

theorem reachInit_closed : ∀ s ∈ reachInit, ∀ u ∈ nextStates s, u ∈ reachInit := by decide

theorem reachOverlap_closed :
    ∀ s ∈ reachOverlap, ∀ u ∈ nextStates s, u ∈ reachOverlap := by decide

theorem overlapEntry_subset : ∀ s ∈ overlapEntry, s ∈ reachOverlap := by decide

theorem initGState_mem : initGState ∈ reachInit := by decide

theorem reachOverlap_exactlyOne :
    ∀ s ∈ reachOverlap, bothReturned s → exactlyOneRan s := by decide

/-- Claim C1 as amended: when two overlapping invocations of
run_scheduled_sync for the same schedule run in the SAME server process
(sharing the module-level lock map) — one invocation taking its first step
while the other is in progress — then once both have returned, exactly one
of them executed the sub-syncs and the other observed the lock map or the
persisted is_running flag and returned without executing anything (the
logged skip).  Quantification is over all interleavings: sched₁ is the
prefix before the overlapping invocation's first step, sched₂ the rest. -/
theorem c1_guard_same_process (sched₁ sched₂ : List Bool) (t : Bool)
    (h1 : pcOf t (runSched true sched₁ initGState) = GPc.enter)
    (h2 : inProgress (pcOf (!t) (runSched true sched₁ initGState)))
    (h3 : bothReturned (runSched true (sched₁ ++ t :: sched₂) initGState)) :
    exactlyOneRan (runSched true (sched₁ ++ t :: sched₂) initGState) := by
  have hsplit : runSched true (sched₁ ++ t :: sched₂) initGState =
      runSched true sched₂ (stepThread true t (runSched true sched₁ initGState)) := by
    rw [runSched_append, runSched_cons]
  have hs₁ : runSched true sched₁ initGState ∈ reachInit :=
    mem_runSched_of_closed _ reachInit_closed sched₁ _ initGState_mem
  obtain ⟨h2a, h2b⟩ := h2
  have hentry : stepThread true t (runSched true sched₁ initGState) ∈ overlapEntry := by
    cases t with
    | false =>
      apply List.mem_append_left
      refine List.mem_map.mpr ⟨runSched true sched₁ initGState, ?_, rfl⟩
      refine List.mem_filter.mpr ⟨hs₁, ?_⟩
      simp [pcOf] at h1 h2a h2b
      simp [h1, h2a, h2b]
    | true =>
      apply List.mem_append_right
      refine List.mem_map.mpr ⟨runSched true sched₁ initGState, ?_, rfl⟩
      refine List.mem_filter.mpr ⟨hs₁, ?_⟩
      simp [pcOf] at h1 h2a h2b
      simp [h1, h2a, h2b]
  have hmem : runSched true sched₂
      (stepThread true t (runSched true sched₁ initGState)) ∈ reachOverlap :=
    mem_runSched_of_closed _ reachOverlap_closed sched₂ _ (overlapEntry_subset _ hentry)
  rw [hsplit] at h3 ⊢
  exact reachOverlap_exactlyOne _ hmem h3

/-- The fully interleaved cross-process schedule: A and B alternate through
all seven steps of the guard protocol. -/
def demoCrossSched : List Bool :=
  [false, true, false, true, false, true, false, true, false, true, false, true]

/-- Counterexample to C1: with the two invocations in DIFFERENT processes
(separate lock maps, shared is_running flag), invocation B takes its first
step while invocation A is in progress — the runs overlap in time — yet both
pass the guard (each checks is_running before the other commits it) and both
execute the sub-syncs; neither observes a guard, so it is not true that
exactly one of two overlapping invocations executes. -/
theorem c1_counterexample :
    (pcOf true (runSched false [false] initGState) = GPc.enter ∧
      inProgress (pcOf false (runSched false [false] initGState))) ∧
    (runSched false demoCrossSched initGState).pcA = GPc.returnRun ∧
    (runSched false demoCrossSched initGState).pcB = GPc.returnRun ∧
    ¬ exactlyOneRan (runSched false demoCrossSched initGState) := by decide

/-- Witness for C1: in the same process, invocation B starting right after
invocation A has entered observes the lock map and skips; A alone executes. -/
theorem c1_witness :
    (pcOf true (runSched true [false] initGState) = GPc.enter ∧
      inProgress (pcOf (!true) (runSched true [false] initGState)) ∧
      bothReturned (runSched true ([false] ++ true :: [false, false, false, false, false])
        initGState)) ∧
    exactlyOneRan (runSched true ([false] ++ true :: [false, false, false, false, false])
      initGState) :=
  ⟨⟨by decide, by decide, by decide⟩,
    c1_guard_same_process [false] [false, false, false, false, false] true
      (by decide) (by decide) (by decide)⟩

end ShopifyConnector
